import Mathlib

set_option maxRecDepth 10000

/-!
Verification development for the video preview generation pipeline
(`src/metadata&preview_maker/preview.py`).

The Python code is shallowly embedded: pure computations become Lean
functions over `ℚ`, `ℕ`, `String` and `List`; the outcomes of external
processes (ffmpeg / ffprobe calls, filesystem operations, interactive
prompts) are passed in as explicit parameters.  Python float arithmetic is
modelled with exact rationals; `round(x, 3)` is modelled with round-half-
to-even on the thousandths grid, matching Python's rounding mode.
-/

namespace Preview

/-! ### Cut-point planner (`VideoProcessor._generate_cut_points`, lines 538-618)

`round(q, 3)` in Python rounds half to even.  On the values reached by the
planner (multiples of 1/1000) it is the identity.
-/

structure Clip where
  w : ℕ
  h : ℕ
  fps : ℚ
  dur : ℚ
  isFiller : Bool
deriving DecidableEq

instance : Inhabited Clip := ⟨⟨480, 270, 24, 3/2, false⟩⟩

/-- The solid-colour filler clip synthesized for a short row (lines
1200-1231): the code ffprobes the row's first segment and builds the black
clip from the parsed width, height, frame rate and duration; when that
probe (or its parse) fails it falls back to the defaults `480x270`, the
video's metadata frame rate and the configured `SEGMENT_DURATION`
(line 1208) — which need not match the first clip.  `probeOk` is the
outcome of that external call (a partial parse in the code keeps the
fields parsed before the failure; the two total cases modelled here
bracket it). -/
def fillerClip (probeOk : Bool) (metaFps segDur : ℚ) (first : Clip) : Clip :=
  if probeOk then ⟨first.w, first.h, first.fps, first.dur, true⟩
  else ⟨480, 270, metaFps, segDur, true⟩

/-- `num_rows = (num_segments + grid - 1) // grid` (line 1188). -/
def sheetNumRows (grid S : ℕ) : ℕ := (S + grid - 1) / grid

/-- `group = sheet_segments[r*grid : min((r+1)*grid, num_segments)]`
(lines 1191-1193). -/
def sheetRowGroup (grid : ℕ) (segs : List Clip) (r : ℕ) : List Clip :=
  (segs.drop (r * grid)).take grid

/-- One padded row: the group plus `grid - len(group)` copies of the black
filler clip synthesized from the probe of the group's first segment
(lines 1198-1231). -/
def sheetPaddedRow (grid : ℕ) (probeOk : Bool) (metaFps segDur : ℚ)
    (segs : List Clip) (r : ℕ) : List Clip :=
  let group := sheetRowGroup grid segs r
  group ++ List.replicate (grid - group.length)
    (fillerClip probeOk metaFps segDur group.headI)

/-- All rows handed to horizontal stacking, in order (lines 1190-1238).
At most one row (the last) is short, so one probe outcome suffices. -/
def sheetRows (grid : ℕ) (probeOk : Bool) (metaFps segDur : ℚ)
    (segs : List Clip) : List (List Clip) :=
  (List.range (sheetNumRows grid segs.length)).map
    (sheetPaddedRow grid probeOk metaFps segDur segs)

/-! ### Static image sheet
(`VideoProcessor._extract_segment_frames`, lines 1292-1360, and
`VideoProcessor._generate_image_preview_sheet`, lines 1362-1470)

Frames are identified by a number; per-segment extraction outcomes are
given as `Option` values (`none` = both the midpoint and the fallback
ffmpeg attempts failed). -/

/-- A grid cell of the static sheet: either a pasted frame, or the labelled
"Missing Frame i+1" placeholder block; the label is modelled by the frame
number it shows. -/
inductive SheetCell
  | frame (f : ℕ)
  | placeholder (label : ℕ)
deriving DecidableEq

/-- `_extract_segment_frames` appends only the successfully extracted
frames, in segment order: failed extractions are skipped, not recorded
(lines 1307-1352). -/
def extractSegmentFrames (results : List (Option ℕ)) : List ℕ :=
  results.filterMap id

/-- The cells of the static sheet in row-major index order: cell `i` (at
grid position `(i % grid, i // grid)`) is the `i`-th extracted frame when
`i < len(frames)` (lines 1416-1427), and the "Missing Frame i+1"
placeholder otherwise (lines 1438-1445). -/
def imageSheetCells (expected : ℕ) (frames : List ℕ) : List SheetCell :=
  (List.range expected).map (fun i =>
    if i < frames.length then SheetCell.frame (frames.getD i 0)
    else SheetCell.placeholder (i + 1))

/-- The static sheet build: `run` skips it (returns a failed artifact) when
no frame at all was extracted (lines 410-415, 1365-1367), and otherwise
produces the grid of `NUM_OF_SEGMENTS` cells. -/
def generateImageSheet (expected : ℕ) (results : List (Option ℕ)) : Option (List SheetCell) :=
  if extractSegmentFrames results = [] then none
  else some (imageSheetCells expected (extractSegmentFrames results))

def isPlaceholderCell : SheetCell → Bool
  | .frame _ => false
  | .placeholder _ => true

/-- Number of failed frame extractions. -/
def failedCount (results : List (Option ℕ)) : ℕ :=
  results.countP (fun o => o.isNone)

/-- The cell at index `i` of the produced sheet. -/
def cellsOf (expected : ℕ) (results : List (Option ℕ)) (i : ℕ) : SheetCell :=
  ((generateImageSheet expected results).getD []).getD i (SheetCell.frame 0)

/-- Does cell `i` agree with the claim: a placeholder exactly when segment
`i`'s extraction failed, and segment `i`'s own frame otherwise? -/
def c3CellCorrect (expected : ℕ) (results : List (Option ℕ)) (i : ℕ) : Bool :=
  match results.getD i none with
  | none => isPlaceholderCell (cellsOf expected results i)
  | some f => decide (cellsOf expected results i = SheetCell.frame f)

/-- Modelled from the spec: the claim that the produced static sheet has a
placeholder at the grid position of every failed segment and every other
cell populated by its own segment's frame. -/
def c3SpecProp (expected : ℕ) (results : List (Option ℕ)) : Prop :=
  generateImageSheet expected results ≠ none ∧
  ∀ i, i < expected → c3CellCorrect expected results i = true

/-- Sixteen segments whose frame extraction failed for segments 3, 6 and 10
(indices 2, 5, 9): the scenario of the claim. -/
def c3Results : List (Option ℕ) :=
  [some 1, some 2, none, some 4, some 5, none, some 7, some 8,
   some 9, none, some 11, some 12, some 13, some 14, some 15, some 16]

/-! ### The per-video run (`VideoProcessor.run`, lines 324-444, and
`VideoProcessor._check_existing_outputs`, lines 228-322)

The run is a straight-line sequence of stages; each external or
filesystem-dependent outcome is a parameter.  `probeCalled` records
whether any external probe/transcode call was made: the first such call is
the rotation ffprobe inside `_get_metadata` (line 455); everything before
it (the existing-output check, `mkdir`, `shutil.move`) runs no external
tool. -/

inductive VideoLoc
  | original
  | target
deriving DecidableEq

structure RunParams where
  createWebpPreview : Bool
  createWebpSheet : Bool
  createImageSheet : Bool
  shouldProcess : Bool
  mkdirOk : Bool
  videoLoc0 : VideoLoc
  moveOk : Bool
  tempDirOk : Bool
  metadataOk : Bool
  duration : ℚ
  cutPoints : List ℚ
  verifiedSegments : ℕ
  webpPreviewOk : Bool
  webpSheetOk : Bool
  framesExtracted : ℕ
  imageSheetOk : Bool

structure RunResult where
  success : Bool
  videoLoc : VideoLoc
  probeCalled : Bool
  artifactsAttempted : Bool
  producedWebpPreview : Bool
  producedWebpSheet : Bool
  producedImageSheet : Bool
deriving DecidableEq

/-- `CREATE_WEBP_PREVIEW or CREATE_WEBP_PREVIEW_SHEET or
CREATE_IMAGE_PREVIEW_SHEET` (lines 396, 424-426). -/
def anyPreviewRequested (p : RunParams) : Bool :=
  p.createWebpPreview || p.createWebpSheet || p.createImageSheet

/-- `VideoProcessor.run`: existing-output check; `mkdir` of the output
directory; move of the source video into the output directory when it is
not already there (lines 345-358 — before any probe); temp directory;
metadata probe; the `duration <= 10` gate; cut-point planning; segment
extraction (`verifiedSegments` verified segments; zero with a preview
requested aborts, lines 396-399); then each configured artifact is built
(lines 401-431) and the run succeeds iff any requested artifact was
produced — or trivially when none was requested (lines 417-431). -/
def run (p : RunParams) : RunResult :=
  if p.shouldProcess = false then
    ⟨false, p.videoLoc0, false, false, false, false, false⟩
  else if p.mkdirOk = false then
    ⟨false, p.videoLoc0, false, false, false, false, false⟩
  else if p.videoLoc0 = VideoLoc.original ∧ p.moveOk = false then
    ⟨false, VideoLoc.original, false, false, false, false, false⟩
  else if p.tempDirOk = false then
    ⟨false, VideoLoc.target, false, false, false, false, false⟩
  else if p.metadataOk = false then
    ⟨false, VideoLoc.target, true, false, false, false, false⟩
  else if p.duration ≤ 10 then
    ⟨false, VideoLoc.target, true, false, false, false, false⟩
  else if p.cutPoints = [] then
    ⟨false, VideoLoc.target, true, false, false, false, false⟩
  else if p.verifiedSegments = 0 ∧ anyPreviewRequested p = true then
    ⟨false, VideoLoc.target, true, false, false, false, false⟩
  else
    let prod1 := p.createWebpPreview && p.webpPreviewOk
    let prod2 := p.createWebpSheet && p.webpSheetOk
    let prod3 := p.createImageSheet && ((p.framesExtracted != 0) && p.imageSheetOk)
    let ok := prod1 || prod2 || prod3
    ⟨ok || !(anyPreviewRequested p), VideoLoc.target, true, true, prod1, prod2, prod3⟩

/-- `VideoProcessor._check_existing_outputs` (lines 228-322): `true` means
"proceed with generation".  `e1 e2 e3` are the existence of the three
generated artifacts, `videoInTarget` whether the source video already sits
in the output directory, `promptYes` the user's answer to the
delete-before-regenerating prompts of scenario 3 (all prompts are answered
alike; a refused prompt skips the file). -/
def checkExistingOutputs (f1 f2 f3 e1 e2 e3 videoInTarget ignoreExisting promptYes : Bool) :
    Bool :=
  let allRequiredExist := (!f1 || e1) && (!f2 || e2) && (!f3 || e3)
  let anyGeneratedExists := (f1 && e1) || (f2 && e2) || (f3 && e3)
  if allRequiredExist && videoInTarget && !ignoreExisting then false
  else if ignoreExisting then true
  else if anyGeneratedExists then promptYes
  else true

/-- Run parameters for the C5 counterexample: sixteen cut points planned,
zero segments verified, but no preview artifact configured. -/
def c5Params : RunParams :=
  ⟨false, false, false, true, true, VideoLoc.target, true, true, true, 120,
   [1/2], 0, false, false, 0, false⟩

/-- Run parameters for the C6 counterexample: every artifact already
exists and `IGNORE_EXISTING` is off, but the source video is not in the
output directory, so scenario 3 prompts and (on "yes") regenerates. -/
def c6Params : RunParams :=
  ⟨true, true, true,
   checkExistingOutputs true true true true true true false false true,
   true, VideoLoc.original, true, true, true, 120, [1/2], 16, true, true, 16, true⟩

/-- Run parameters for the C9 counterexample: the move succeeds and the
metadata probe then fails, so the run fails with the video already moved. -/
def c9Params : RunParams :=
  ⟨true, true, true, true, true, VideoLoc.original, true, true, false, 120,
   [1/2], 16, true, true, 16, true⟩

/-- Run parameters exercising the artifact stage: only the standalone WebP
preview is configured and it succeeds. -/
def c4Params : RunParams :=
  ⟨true, false, false, true, true, VideoLoc.target, true, true, true, 120,
   [1/2], 16, true, false, 0, false⟩

/-- Run parameters with a preview configured but zero verified segments. -/
def c5ZeroSegParams : RunParams :=
  ⟨true, true, true, true, true, VideoLoc.target, true, true, true, 120,
   [1/2], 0, true, true, 0, true⟩

/-- Run parameters for the amended C6 scenario: everything already exists,
the video already sits in the output directory and `IGNORE_EXISTING` is
off, so the existing-output check skips. -/
def c6SkipParams : RunParams :=
  ⟨true, true, true,
   checkExistingOutputs true true true true true true true false true,
   true, VideoLoc.target, true, true, true, 120, [1/2], 16, true, true, 16, true⟩

/-- Six real segment clips on the default landscape scale. -/
def c2Segs : List Clip := List.replicate 6 ⟨480, 270, 24, 3/2, false⟩

/-- Five real segment clips from a vertical source without black bars:
`_get_vf_filter` scales them to `270x480` (line 629). -/
def c2VerticalSegs : List Clip := List.replicate 5 ⟨270, 480, 30, 3/2, false⟩

/-- The short second row of the 5-segment, grid-4 sheet when the ffprobe
of the row's first segment fails: one real vertical clip plus three
default-sized fillers. -/
def c2FallbackRow : List Clip :=
  (sheetRows 4 false 30 (3/2) c2VerticalSegs).getD 1 []

/-! ### Segment extraction window (`VideoProcessor._generate_segments`,
lines 664-765) -/

/-- The per-cut-point admission logic (lines 679-692): skip when the start
is at or beyond the duration; clamp the length to the remaining video;
skip when the clamped length is at most `0.01` s. -/
def segmentPlan (segDur maxDur start : ℚ) : Option ℚ :=
  if maxDur ≤ start then none
  else if min segDur (maxDur - start) ≤ 1/100 then none
  else some (min segDur (maxDur - start))

/-- The extraction loop over all cut points: a skipped cut point is simply
dropped (`continue`), the rest proceed. -/
def generateSegmentsPlan (segDur maxDur : ℚ) (cuts : List ℚ) : List (ℚ × ℚ) :=
  cuts.filterMap (fun s => (segmentPlan segDur maxDur s).map (fun d => (s, d)))

/-! ### Timestamp overlay (`VideoProcessor._overlay_timestamp`, lines
767-811, and its use in `_generate_segments`, lines 728-749) -/

/-- `output_path = segment_path.with_name("ts_" + name)` (line 770). -/
def overlayOutputName (segName : String) : String := "ts_" ++ segName

/-- `_overlay_timestamp`: on success the derived `ts_*` file is returned
and both files exist; on failure the partial output is deleted and `none`
is returned — the original segment is left untouched (lines 802-811).  The
second component lists the files present afterwards. -/
def overlayTimestamp (ok : Bool) (segName : String) : Option String × List String :=
  if ok then (some (overlayOutputName segName), [segName, overlayOutputName segName])
  else (none, [segName])

/-- Which file feeds the standalone preview and which feeds the sheet,
given `TIMESTAMPS_MODE` and the overlay outcome (lines 728-746): mode 1
uses the overlay for both, mode 2 only for the sheet, and on overlay
failure both fall back to the un-overlaid segment. -/
def segmentPathsForUses (mode : ℕ) (ok : Bool) (segName : String) : String × String :=
  if mode = 1 ∨ mode = 2 then
    match (overlayTimestamp ok segName).1 with
    | some p => if mode = 1 then (p, p) else (segName, p)
    | none => (segName, segName)
  else (segName, segName)

/-- The accumulation of `valid_segment_paths` and
`timestamped_paths_for_sheet` over the verified segments (lines 748-749):
every verified segment contributes one entry to each list whatever the
overlay outcome. -/
def segmentLists (mode : ℕ) (segs : List (String × Bool)) : List String × List String :=
  segs.foldr (fun sb acc =>
    let pr := segmentPathsForUses mode sb.2 sb.1
    (pr.1 :: acc.1, pr.2 :: acc.2)) ([], [])

/-! ### Output naming (`VideoProcessor.__init__`, lines 206-219, and the
paths checked by `_check_existing_outputs`, lines 234-242)

`sanitizedStem` stands for `sanitize_filename(video_path.stem)`, which
does not depend on the black-bar toggle. -/

/-- `base_filename`, with `"_black_bars"` appended when `ADD_BLACK_BARS`
is set (lines 210-212). -/
def mkBaseFilename (sanitizedStem : String) (addBlackBars : Bool) : String :=
  if addBlackBars then sanitizedStem ++ "_black_bars" else sanitizedStem

/-- `output_dir = base_output_dir / base_filename` (line 217). -/
def outputDirPath (baseOut base : String) : String := baseOut ++ "/" ++ base

/-- `temp_dir = output_dir / (base_filename + "-temp")` (line 219). -/
def tempDirPath (baseOut base : String) : String :=
  outputDirPath baseOut base ++ "/" ++ base ++ "-temp"

/-- `output_dir / (base_filename + "_preview.webp")` (line 237). -/
def webpPreviewPath (baseOut base : String) : String :=
  outputDirPath baseOut base ++ "/" ++ base ++ "_preview.webp"

/-- `output_dir / (base_filename + "_preview_sheet.webp")` (line 238). -/
def webpSheetPath (baseOut base : String) : String :=
  outputDirPath baseOut base ++ "/" ++ base ++ "_preview_sheet.webp"

/-- `output_dir / (base_filename + "_preview_sheet." + ext)` (lines 234,
239). -/
def imageSheetPath (baseOut base ext : String) : String :=
  outputDirPath baseOut base ++ "/" ++ base ++ "_preview_sheet." ++ ext

/-- The three generated-artifact paths `_check_existing_outputs` examines,
which are also exactly the paths the three generators write to (lines
880, 1273, 1449). -/
def checkedArtifactPaths (baseOut base ext : String) : List String :=
  [webpPreviewPath baseOut base, webpSheetPath baseOut base,
   imageSheetPath baseOut base ext]

/-! ## Supporting lemmas for the cut-point planner -/

theorem headI_append_of_ne_nil {α : Type} [Inhabited α] {l t : List α} (h : l ≠ []) :
    (l ++ t).headI = l.headI := by
  cases l with
  | nil => exact absurd rfl h
  | cons a l => rfl

theorem lt_of_lt_sheetNumRows {grid S r : ℕ} (hg : 0 < grid)
    (hr : r < sheetNumRows grid S) : r * grid < S := by
  unfold sheetNumRows at hr
  have h1 : (r + 1) * grid ≤ ((S + grid - 1) / grid) * grid :=
    Nat.mul_le_mul_right grid hr
  have h2 : ((S + grid - 1) / grid) * grid ≤ S + grid - 1 := Nat.div_mul_le_self _ _
  have h3 : (r + 1) * grid = r * grid + grid := by ring
  omega

theorem sheetNumRows_bounds {grid S : ℕ} (hg : 0 < grid) (hS : 0 < S) :
    S ≤ grid * sheetNumRows grid S ∧ grid * sheetNumRows grid S < S + grid := by
  unfold sheetNumRows
  have hdm := Nat.div_add_mod (S + grid - 1) grid
  have hmod : (S + grid - 1) % grid < grid := Nat.mod_lt _ hg
  omega

theorem sheetRowGroup_length (grid : ℕ) (segs : List Clip) (r : ℕ) :
    (sheetRowGroup grid segs r).length = min grid (segs.length - r * grid) := by
  simp [sheetRowGroup]

/-- Claim C2 (amended): for grid width `G` and a non-empty list of `S`
extracted segments, the composer builds exactly `ceil(S/G)` rows
(`sheetNumRows`, characterized by the two inequalities) and every stacked
row has exactly `G` entries, whatever the filler probe's outcome; a
synthesized filler entry matches the resolution, frame rate and duration
of its row's first clip whenever the ffprobe of that clip succeeded, and
otherwise is the default `480x270` clip at the video's metadata frame
rate and the configured segment duration.  (The unconditional matching of
the original claim is refuted by `c2_filler_defaults_counterexample`.) -/
theorem c2_gridComposer :
    ∀ (grid : ℕ) (probeOk : Bool) (metaFps segDur : ℚ) (segs : List Clip),
      0 < grid → segs ≠ [] →
      (sheetRows grid probeOk metaFps segDur segs).length = sheetNumRows grid segs.length ∧
      (segs.length ≤ grid * sheetNumRows grid segs.length ∧
        grid * sheetNumRows grid segs.length < segs.length + grid) ∧
      (∀ row ∈ sheetRows grid probeOk metaFps segDur segs, row.length = grid) ∧
      ((∀ s ∈ segs, s.isFiller = false) →
        ∀ row ∈ sheetRows grid probeOk metaFps segDur segs, ∀ c ∈ row, c.isFiller = true →
          (probeOk = true →
            c.w = row.headI.w ∧ c.h = row.headI.h ∧
            c.fps = row.headI.fps ∧ c.dur = row.headI.dur) ∧
          (probeOk = false → c = ⟨480, 270, metaFps, segDur, true⟩)) := by
  intro grid probeOk metaFps segDur segs hg hne
  have hS : 0 < segs.length := List.length_pos.mpr hne
  have hgroup : ∀ r, r < sheetNumRows grid segs.length →
      (sheetRowGroup grid segs r).length = min grid (segs.length - r * grid) ∧
      sheetRowGroup grid segs r ≠ [] ∧
      (sheetRowGroup grid segs r).length ≤ grid := by
    intro r hr
    have hlt := lt_of_lt_sheetNumRows hg hr
    refine ⟨sheetRowGroup_length grid segs r, ?_, ?_⟩
    · rw [← List.length_pos, sheetRowGroup_length]
      omega
    · rw [sheetRowGroup_length]
      omega
  refine ⟨?_, sheetNumRows_bounds hg hS, ?_, ?_⟩
  · simp [sheetRows]
  · intro row hrow
    obtain ⟨r, hr, hr2⟩ := List.mem_map.mp hrow
    rw [List.mem_range] at hr
    obtain ⟨hlen, hnn, hle⟩ := hgroup r hr
    rw [← hr2]
    unfold sheetPaddedRow
    rw [List.length_append, List.length_replicate]
    omega
  · intro hreal row hrow c hc hcf
    obtain ⟨r, hr, hr2⟩ := List.mem_map.mp hrow
    rw [List.mem_range] at hr
    obtain ⟨hlen, hnn, hle⟩ := hgroup r hr
    rw [← hr2] at hc ⊢
    unfold sheetPaddedRow at hc ⊢
    rw [headI_append_of_ne_nil hnn]
    rcases List.mem_append.mp hc with hmem | hmem
    · -- a real clip of the group cannot carry the filler flag
      have : c ∈ segs :=
        List.mem_of_mem_drop (List.mem_of_mem_take hmem)
      exact absurd hcf (by rw [hreal c this]; simp)
    · -- a padding entry is the synthesized filler for this row
      have := List.eq_of_mem_replicate hmem
      subst this
      constructor
      · intro hp
        simp [fillerClip, hp]
      · intro hp
        simp [fillerClip, hp]

/-- Witness for C2: six segments at grid width 4 with a successful filler
probe yield two rows. -/
theorem c2_gridComposer_witness : (sheetRows 4 true 24 (3/2) c2Segs).length = 2 :=
  ((c2_gridComposer 4 true 24 (3/2) c2Segs (by decide) (by simp [c2Segs])).1).trans (by rfl)

/-- Claim C2 counterexample: five vertical `270x480` segments at grid
width 4, with the ffprobe of the short row's first segment failing: the
synthesized fillers are the default `480x270` clips, whose resolution does
not match the row's first clip — the original claim's unconditional
"filler matching the first clip" fails on the probe-fallback path. -/
theorem c2_filler_defaults_counterexample :
    (c2FallbackRow.getD 1 ⟨0, 0, 0, 0, false⟩).isFiller = true ∧
    c2FallbackRow.headI.isFiller = false ∧
    (c2FallbackRow.getD 1 ⟨0, 0, 0, 0, false⟩).w ≠ c2FallbackRow.headI.w ∧
    (c2FallbackRow.getD 1 ⟨0, 0, 0, 0, false⟩).h ≠ c2FallbackRow.headI.h := by
  with_unfolding_all decide

/-! ## Supporting lemmas for the static sheet -/

theorem filterMap_id_length (l : List (Option ℕ)) :
    (l.filterMap id).length + l.countP (fun o => o.isNone) = l.length := by
  induction l with
  | nil => simp
  | cons a t ih =>
      cases a with
      | none =>
          have h1 : List.filterMap id (none :: t) = List.filterMap id t := by simp
          have h2 : List.countP (fun o => o.isNone) (none :: t) =
              List.countP (fun o => o.isNone) t + 1 := by
            rw [List.countP_cons]
            simp
          rw [h1, h2, List.length_cons]
          omega
      | some x =>
          have h1 : List.filterMap id (some x :: t) = x :: List.filterMap id t := by simp
          have h2 : List.countP (fun o => o.isNone) (some x :: t) =
              List.countP (fun o => o.isNone) t := by
            rw [List.countP_cons]
            simp
          rw [h1, h2, List.length_cons, List.length_cons]
          omega

theorem imageSheetCells_eq {expected : ℕ} {frames : List ℕ}
    (h : frames.length ≤ expected) :
    imageSheetCells expected frames =
      frames.map SheetCell.frame ++
        (List.range (expected - frames.length)).map
          (fun j => SheetCell.placeholder (frames.length + j + 1)) := by
  apply List.ext_getElem
  · simp [imageSheetCells]
    omega
  · intro i h1 h2
    simp only [imageSheetCells, List.getElem_map, List.getElem_range]
    by_cases hi : i < frames.length
    · rw [if_pos hi, List.getElem_append_left (by simpa using hi)]
      simp [List.getElem?_eq_getElem hi]
    · rw [if_neg hi, List.getElem_append_right (by simpa using hi)]
      simp only [List.getElem_map, List.getElem_range, List.length_map]
      congr 1
      omega

/-- Claim C3 (amended): when at least one frame was extracted, the static
sheet is produced; its cells are the surviving frames in extraction order,
compacted to the front of the grid, followed by one labelled placeholder
cell per missing slot at the trailing grid positions; the number of
placeholder slots equals the number of failed extractions.  (The claim's
statement that each placeholder sits at the failed segment's own grid
position is refuted by `c3_placeholder_position_counterexample`.) -/
theorem c3_staticSheet :
    ∀ (expected : ℕ) (results : List (Option ℕ)),
      results.length = expected →
      extractSegmentFrames results ≠ [] →
      generateImageSheet expected results =
        some ((extractSegmentFrames results).map SheetCell.frame ++
          (List.range (expected - (extractSegmentFrames results).length)).map
            (fun j => SheetCell.placeholder ((extractSegmentFrames results).length + j + 1))) ∧
      (extractSegmentFrames results).length + failedCount results = expected := by
  intro expected results hlen hne
  have hle : (extractSegmentFrames results).length ≤ expected := by
    rw [← hlen]
    exact List.length_filterMap_le _ _
  constructor
  · unfold generateImageSheet
    rw [if_neg hne]
    exact congrArg some (imageSheetCells_eq hle)
  · have hfm := filterMap_id_length results
    unfold failedCount extractSegmentFrames at *
    omega

/-- Witness for C3: on the 16-segment scenario with three failed
extractions, the extracted frames and the failures exactly fill the
16-slot grid. -/
theorem c3_staticSheet_witness :
    (extractSegmentFrames c3Results).length + failedCount c3Results = 16 :=
  (c3_staticSheet 16 c3Results rfl (by decide)).2

/-- Claim C3 counterexample: with extractions failing for segments 3, 6 and
10 of 16, the produced sheet does not put placeholders at those segments'
grid positions — the surviving frames are compacted forward (cell 2 shows
segment 4's frame) and the placeholders end up in the last three cells. -/
theorem c3_placeholder_position_counterexample : ¬ c3SpecProp 16 c3Results := by
  unfold c3SpecProp
  decide

/-! ## The run-level claims -/

/-- Claim C4: for a run with at least one artifact type configured, the
overall result is success iff at least one requested artifact was
produced, and when the artifact stage is reached each configured
artifact's outcome depends only on its own build result. -/
theorem c4_runOverallSuccess :
    ∀ p : RunParams, anyPreviewRequested p = true →
      (((run p).success = true ↔
        (run p).producedWebpPreview = true ∨ (run p).producedWebpSheet = true ∨
          (run p).producedImageSheet = true) ∧
      ((run p).artifactsAttempted = true →
        (run p).producedWebpPreview = (p.createWebpPreview && p.webpPreviewOk) ∧
        (run p).producedWebpSheet = (p.createWebpSheet && p.webpSheetOk) ∧
        (run p).producedImageSheet =
          (p.createImageSheet && ((p.framesExtracted != 0) && p.imageSheetOk)))) := by
  intro p hreq
  unfold run
  split_ifs <;> simp_all
  tauto

/-- Witness for C4: a run configured only for the standalone preview,
whose build succeeds. -/
theorem c4_runOverallSuccess_witness :
    (run c4Params).success = true ↔
      (run c4Params).producedWebpPreview = true ∨ (run c4Params).producedWebpSheet = true ∨
        (run c4Params).producedImageSheet = true :=
  (c4_runOverallSuccess c4Params rfl).1

/-- Claim C5 (amended): in every run with at least one artifact type
configured, zero verified segments make the whole run fail before the
artifact stage, so nothing is produced.  (Without any configured artifact
the code instead reports success, `c5_no_artifacts_configured_counterexample`.) -/
theorem c5_zeroSegmentsFailure :
    ∀ p : RunParams, anyPreviewRequested p = true → p.verifiedSegments = 0 →
      (run p).success = false ∧ (run p).artifactsAttempted = false ∧
      (run p).producedWebpPreview = false ∧ (run p).producedWebpSheet = false ∧
      (run p).producedImageSheet = false := by
  intro p h1 h2
  unfold run
  split_ifs <;> simp_all

/-- Witness for C5: a fully configured run with zero verified segments
fails without attempting any artifact. -/
theorem c5_zeroSegmentsFailure_witness :
    (run c5ZeroSegParams).success = false ∧ (run c5ZeroSegParams).artifactsAttempted = false :=
  ⟨(c5_zeroSegmentsFailure c5ZeroSegParams rfl rfl).1,
   (c5_zeroSegmentsFailure c5ZeroSegParams rfl rfl).2.1⟩

/-- Claim C5 counterexample: segments were requested (a cut point exists)
and zero got verified, yet with no artifact type configured the run
returns success (lines 429-431 treat "nothing requested" as success). -/
theorem c5_no_artifacts_configured_counterexample :
    c5Params.cutPoints ≠ [] ∧ c5Params.verifiedSegments = 0 ∧
    anyPreviewRequested c5Params = false ∧ (run c5Params).success = true := by
  refine ⟨?_, rfl, rfl, ?_⟩
  · simp [c5Params]
  · with_unfolding_all decide

theorem checkExistingOutputs_skip :
    ∀ f1 f2 f3 e1 e2 e3 promptYes : Bool,
      (f1 = true → e1 = true) → (f2 = true → e2 = true) → (f3 = true → e3 = true) →
      checkExistingOutputs f1 f2 f3 e1 e2 e3 true false promptYes = false := by
  decide

/-- Claim C6 (amended): on a second invocation with `IGNORE_EXISTING`
disabled, all configured target artifacts present and the source video
already in the output directory (as a successful first run leaves it,
`c9_moveBeforeProcessing`), the existing-output check skips the run before
any external probe or transcode call.  (Without the video in the output
directory the check prompts and can regenerate,
`c6_prompt_path_counterexample`.) -/
theorem c6_secondRunSkips :
    ∀ (p : RunParams) (e1 e2 e3 promptYes : Bool),
      (p.createWebpPreview = true → e1 = true) →
      (p.createWebpSheet = true → e2 = true) →
      (p.createImageSheet = true → e3 = true) →
      p.shouldProcess = checkExistingOutputs p.createWebpPreview p.createWebpSheet
        p.createImageSheet e1 e2 e3 true false promptYes →
      (run p).probeCalled = false ∧ (run p).success = false ∧
        (run p).artifactsAttempted = false := by
  intro p e1 e2 e3 py h1 h2 h3 hsp
  have hfalse : p.shouldProcess = false := by
    rw [hsp]
    exact checkExistingOutputs_skip _ _ _ _ _ _ _ h1 h2 h3
  unfold run
  rw [if_pos hfalse]
  exact ⟨rfl, rfl, rfl⟩

/-- Witness for C6: a fully configured second run over a complete output
directory is skipped with no probe call. -/
theorem c6_secondRunSkips_witness : (run c6SkipParams).probeCalled = false :=
  (c6_secondRunSkips c6SkipParams true true true true (fun _ => rfl) (fun _ => rfl)
    (fun _ => rfl) rfl).1

/-- Claim C6 counterexample: all three target artifact paths exist and
`IGNORE_EXISTING` is off, but the source video is not in the output
directory; the check prompts, a "yes" answer proceeds, and the run makes
probe/transcode calls — not zero. -/
theorem c6_prompt_path_counterexample :
    checkExistingOutputs true true true true true true false false true = true ∧
    (run c6Params).probeCalled = true := by
  constructor
  · rfl
  · with_unfolding_all decide

/-- Claim C9 (amended): the source video is moved into the destination
directory right after the existing-output check, before any processing:
with the move successful the video ends in the destination directory
whether or not the run later succeeds; every successful run ends with the
video in the destination; if the move itself fails the run aborts with
the video still at its original path; and a skipped run never moves it.
(The claim's "moved only once processing succeeds" is refuted by
`c9_moved_despite_failure_counterexample`.) -/
theorem c9_moveBeforeProcessing :
    ∀ p : RunParams,
      ((run p).success = true → (run p).videoLoc = VideoLoc.target) ∧
      (p.shouldProcess = true → p.mkdirOk = true → p.videoLoc0 = VideoLoc.original →
        p.moveOk = true → (run p).videoLoc = VideoLoc.target) ∧
      (p.shouldProcess = true → p.mkdirOk = true → p.videoLoc0 = VideoLoc.original →
        p.moveOk = false → (run p).success = false ∧ (run p).videoLoc = VideoLoc.original) ∧
      (p.shouldProcess = false → (run p).videoLoc = p.videoLoc0) := by
  intro p
  unfold run
  split_ifs <;> simp_all

/-- Witness for C9: with the check passed, the move enabled and
successful, the video sits in the destination directory. -/
theorem c9_moveBeforeProcessing_witness : (run c9Params).videoLoc = VideoLoc.target :=
  (c9_moveBeforeProcessing c9Params).2.1 rfl rfl rfl rfl

/-- Claim C9 counterexample: the metadata probe fails after the move, so
the run does not succeed, yet the source video no longer sits at its
original path — it was already moved to the destination directory. -/
theorem c9_moved_despite_failure_counterexample :
    c9Params.videoLoc0 = VideoLoc.original ∧ (run c9Params).success = false ∧
    (run c9Params).videoLoc = VideoLoc.target := by
  refine ⟨rfl, ?_, ?_⟩ <;> with_unfolding_all decide

/-- Claim C7: an accepted segment starts strictly before the end of the
video; its extracted length is exactly `min(SEGMENT_DURATION, duration -
start)`, exceeds the `0.01` s threshold, and never runs past the video end
(so `start + length ≤ duration`, even with `ε = 0`); a cut point at or
past the duration is skipped, as is one whose clamped length falls at or
below the threshold — and skipping only drops that cut point, the rest of
the list is processed unchanged. -/
theorem c7_segmentWindowClamped :
    ∀ (segDur maxDur : ℚ) (cuts : List ℚ) (s d : ℚ),
      ((s, d) ∈ generateSegmentsPlan segDur maxDur cuts →
        s < maxDur ∧ d = min segDur (maxDur - s) ∧ 1/100 < d ∧ s + d ≤ maxDur) ∧
      (maxDur ≤ s → segmentPlan segDur maxDur s = none) ∧
      (s < maxDur → min segDur (maxDur - s) ≤ 1/100 → segmentPlan segDur maxDur s = none) ∧
      (generateSegmentsPlan segDur maxDur (s :: cuts) =
        match segmentPlan segDur maxDur s with
        | none => generateSegmentsPlan segDur maxDur cuts
        | some d0 => (s, d0) :: generateSegmentsPlan segDur maxDur cuts) := by
  intro segDur maxDur cuts s d
  refine ⟨?_, ?_, ?_, ?_⟩
  · intro hmem
    obtain ⟨c, hc, heq⟩ := List.mem_filterMap.mp hmem
    cases hplan : segmentPlan segDur maxDur c with
    | none => rw [hplan] at heq; exact absurd heq (by simp)
    | some dd =>
        rw [hplan] at heq
        simp at heq
        obtain ⟨rfl, rfl⟩ := heq
        unfold segmentPlan at hplan
        split_ifs at hplan with h1 h2
        have hdd : dd = min segDur (maxDur - c) := (Option.some_injective _ hplan).symm
        subst hdd
        refine ⟨not_le.mp h1, rfl, not_le.mp h2, ?_⟩
        have := min_le_right segDur (maxDur - c)
        linarith
  · intro h
    unfold segmentPlan
    rw [if_pos h]
  · intro h1 h2
    unfold segmentPlan
    rw [if_neg (not_le.mpr h1), if_pos h2]
  · unfold generateSegmentsPlan
    rw [List.filterMap_cons]
    cases segmentPlan segDur maxDur s <;> simp

/-- Witness for C7: the cut point at 6 s of a 120 s video with a 1.5 s
segment length is accepted with exactly that window. -/
theorem c7_segmentWindowClamped_witness :
    (6 : ℚ) < 120 ∧ (3/2 : ℚ) = min (3/2) (120 - 6) ∧ (1:ℚ)/100 < 3/2 ∧
      (6 : ℚ) + 3/2 ≤ 120 :=
  (c7_segmentWindowClamped (3/2) 120 [6] 6 (3/2)).1 (by with_unfolding_all decide)

theorem segmentLists_lengths (mode : ℕ) (segs : List (String × Bool)) :
    (segmentLists mode segs).1.length = segs.length ∧
      (segmentLists mode segs).2.length = segs.length := by
  induction segs with
  | nil => simp [segmentLists]
  | cons a t ih =>
      unfold segmentLists at ih ⊢
      rw [List.foldr_cons]
      exact ⟨by simp [ih.1], by simp [ih.2]⟩

/-- Claim C8: when the timestamp overlay is active (mode 1 or 2) and the
overlay fails for a segment, both the standalone-preview use and the sheet
use fall back to the un-overlaid segment; overlay success produces the new
derived `ts_` file while the un-overlaid segment file is preserved; and a
verified segment enters both downstream lists whatever the overlay
outcome, so an overlay failure never aborts the run. -/
theorem c8_overlayFallback :
    ∀ (mode : ℕ) (seg : String) (segs : List (String × Bool)),
      ((mode = 1 ∨ mode = 2) → segmentPathsForUses mode false seg = (seg, seg)) ∧
      (overlayTimestamp true seg = (some ("ts_" ++ seg), [seg, "ts_" ++ seg]) ∧
        "ts_" ++ seg ≠ seg) ∧
      ((segmentLists mode segs).1.length = segs.length ∧
        (segmentLists mode segs).2.length = segs.length) := by
  intro mode seg segs
  refine ⟨?_, ⟨?_, ?_⟩, segmentLists_lengths mode segs⟩
  · intro hm
    unfold segmentPathsForUses
    rw [if_pos hm]
    rfl
  · rfl
  · intro h
    have hlen := congrArg String.length h
    rw [String.length_append] at hlen
    have h3 : ("ts_" : String).length = 3 := rfl
    omega

/-- Witness for C8: in mode 2 a failed overlay leaves both uses on the
original segment file. -/
theorem c8_overlayFallback_witness :
    segmentPathsForUses 2 false "seg01" = ("seg01", "seg01") :=
  (c8_overlayFallback 2 "seg01" []).1 (Or.inr rfl)

theorem string_ne_of_length_ne {a b : String} (h : a.length ≠ b.length) : a ≠ b :=
  fun he => h (congrArg String.length he)

/-- Claim C10: with the black-bar toggle on, the sanitized base filename
gets `"_black_bars"` appended; hence the output directory, the temp
workspace and all three artifact paths differ from the corresponding paths
of a run with the toggle off, and the existing-output check — which reads
exactly these artifact paths — only ever sees artifacts produced under the
same toggle value. -/
theorem c10_blackBarsNaming :
    ∀ (baseOut stem ext : String), ext.length ≤ 6 →
      mkBaseFilename stem true = mkBaseFilename stem false ++ "_black_bars" ∧
      outputDirPath baseOut (mkBaseFilename stem true) ≠
        outputDirPath baseOut (mkBaseFilename stem false) ∧
      tempDirPath baseOut (mkBaseFilename stem true) ≠
        tempDirPath baseOut (mkBaseFilename stem false) ∧
      (∀ pt ∈ checkedArtifactPaths baseOut (mkBaseFilename stem true) ext,
        ∀ pf ∈ checkedArtifactPaths baseOut (mkBaseFilename stem false) ext, pt ≠ pf) := by
  intro baseOut stem ext hext
  have hsl : ("/" : String).length = 1 := rfl
  have hbb : ("_black_bars" : String).length = 11 := rfl
  have htm : ("-temp" : String).length = 5 := rfl
  have hp1 : ("_preview.webp" : String).length = 13 := rfl
  have hp2 : ("_preview_sheet.webp" : String).length = 19 := rfl
  have hp3 : ("_preview_sheet." : String).length = 15 := rfl
  have hmt : mkBaseFilename stem true = stem ++ "_black_bars" := rfl
  have hmf : mkBaseFilename stem false = stem := rfl
  refine ⟨rfl, ?_, ?_, ?_⟩
  · apply string_ne_of_length_ne
    simp only [outputDirPath, hmt, hmf, String.length_append, hsl, hbb]
    omega
  · apply string_ne_of_length_ne
    simp only [tempDirPath, outputDirPath, hmt, hmf, String.length_append, hsl, hbb, htm]
    omega
  · intro pt hpt pf hpf
    simp only [checkedArtifactPaths, List.mem_cons, List.not_mem_nil, or_false] at hpt hpf
    rcases hpt with rfl | rfl | rfl <;> rcases hpf with rfl | rfl | rfl <;>
      apply string_ne_of_length_ne <;>
      simp only [webpPreviewPath, webpSheetPath, imageSheetPath, outputDirPath,
        hmt, hmf, String.length_append, hsl, hbb, hp1, hp2, hp3] <;>
      omega

/-- Witness for C10: the standalone-preview path of a padded run differs
from that of an unpadded run on the same video. -/
theorem c10_blackBarsNaming_witness :
    webpPreviewPath "/out" (mkBaseFilename "video" true) ≠
      webpPreviewPath "/out" (mkBaseFilename "video" false) :=
  (c10_blackBarsNaming "/out" "video" "png" (by decide)).2.2.2
    (webpPreviewPath "/out" (mkBaseFilename "video" true))
    (by simp [checkedArtifactPaths])
    (webpPreviewPath "/out" (mkBaseFilename "video" false))
    (by simp [checkedArtifactPaths])

end Preview
